import Mathlib

/-!
Verification development for the price-discovery engine of the repository
(`backend/inquirer.py`, `backend/history/price.py`,
`backend/utils/mixins/penalizable_oracle.py`,
`backend/globalcommon/manual_price_oracles.py`).

Shallow embedding conventions:
* `FVal` / `Price` (arbitrary-precision decimals) are modelled as `Rat`;
  the zero-price sentinel `ZERO_PRICE` is `0`.
* Timestamps (`Timestamp`, `ts_now()`) are explicit `Int` parameters
  named `now`; python integer subtraction is `Int` subtraction.
* Python exceptions become the `PyError` sum type; a call that can raise
  returns `Except PyError α`.
* Mutable singleton state (`Inquirer._cached_current_price`, the message
  aggregator, `PriceHistorian` class attributes) is threaded explicitly as
  state records; methods become functions `state → ... → result × state`
  (or `Except ... × state`).
* External collaborators that are imported by the source but whose modules
  are not part of the repository snapshot (concrete oracle adapters, the
  fiat-conversion collaborator, the bisq market lookup) are modelled as
  behaviour parameters carried in a configuration record: the engine code
  under verification only calls them through their interface.
-/

/-- Prices.  The source's `FVal` wraps an arbitrary-precision decimal
(`from fval import FVal`); `Price` is a newtype of it.  We model both as
`Rat`, which is exact for every decimal literal appearing in the source. -/
abbrev Price := Rat

/-- `constants.prices.ZERO_PRICE`: the "could not be determined" sentinel. -/
def ZERO_PRICE : Price := 0

/-- `inquirer.py` line 42: `CURRENT_PRICE_CACHE_SECS = 300`. -/
def CURRENT_PRICE_CACHE_SECS : Int := 300

/-- `oracles.structures.CurrentPriceOracle` (module not in the snapshot).
Members inferred from their uses in `inquirer.py`: the five configurable
instance attributes `_coingecko`, `_cryptocompare`, `_defillama`,
`_uniswapv2`, `_uniswapv3`, `_manualcurrent` plus the result tags
`BLOCKCHAIN` (line 91, 299) and `FIAT` (line 490, 562). -/
inductive CurrentPriceOracle where
  | coingecko
  | cryptocompare
  | defillama
  | uniswapv2
  | uniswapv3
  | manualcurrent
  | blockchain
  | fiat
deriving DecidableEq, Repr

/-- The "oracle" slot of a result as a Python value.  Line 476 of
`inquirer.py` (`return Price(ONE), CurrentPriceOracle, False`) returns the
enum *class object* itself instead of a member; `bareEnum` models that
value so the embedding stays well-typed without papering over the slip. -/
inductive OracleTag where
  | oracle (o : CurrentPriceOracle)
  | bareEnum
deriving DecidableEq, Repr

/-- What an asset resolves to (`asset.resolve()` and the `isinstance`
checks of `_find_usd_price`).  For EVM tokens we record the two facts the
engine reads: whether `asset.protocol in ProtocolsWithPriceLogic`
(`protocolKnown`) and whether `asset.underlying_tokens is not None`
(`hasUnderlying`). -/
inductive AssetKind where
  | fiat
  | crypto
  | evmToken (protocolKnown : Bool) (hasUnderlying : Bool)
deriving DecidableEq, Repr

/-- An asset as observed by the engine.  `hasOracles` is the value of
`is_asset_with_oracles()`; `resolvesTo = none` means `asset.resolve()`
raises `UnknownAsset`.  Assets compare by identifier (`assetEq`). -/
structure Asset where
  identifier : String
  hasOracles : Bool
  resolvesTo : Option AssetKind
deriving DecidableEq, Repr

/-- Python `Asset.__eq__`: assets are value objects compared by their
globally unique identifier (spec §3). -/
def assetEq (a b : Asset) : Bool :=
  a.identifier == b.identifier

/-- `constants.assets.A_USD` (primary fiat currency). -/
def A_USD : Asset := ⟨"USD", true, some .fiat⟩

/-- `constants.assets.A_BTC`. -/
def A_BTC : Asset := ⟨"BTC", true, some .crypto⟩

/-- `constants.assets.A_KFEE` (the fee-unit special asset; a crypto asset
with oracles). -/
def A_KFEE : Asset := ⟨"KFEE", true, some .crypto⟩

/-- `constants.assets.A_BSQ` (the legacy-market special asset). -/
def A_BSQ : Asset := ⟨"BSQ", true, some .crypto⟩

/-- An ordinary fiat target asset used in concrete scenarios. -/
def A_EUR : Asset := ⟨"EUR", true, some .fiat⟩

/-- Python exceptions that the modelled code can raise. -/
inductive PyError where
  | assertionError
  | unboundLocalError
  | wrongAssetType
  | typeError
  | recursionError
deriving DecidableEq, Repr

/-- `inquirer.py` lines 95-99: `CachedPriceEntry` named tuple. -/
structure CachedPriceEntry where
  price : Price
  time : Int
  oracle : OracleTag
  used_main_currency : Bool
deriving DecidableEq, Repr

/-- `Inquirer._cached_current_price : dict[tuple[Asset, Asset], CachedPriceEntry]`.
Keys are the identifier pairs (assets hash/compare by identifier). -/
def Cache := (String × String) → Option CachedPriceEntry

/-- Pointwise dictionary update (`d[k] = v` / `d.pop(k)`). -/
def updateCache (c : Cache) (k : String × String) (e : Option CachedPriceEntry) : Cache :=
  fun k' => if k' = k then e else c k'

/-! ## Penalty tracker (`backend/utils/mixins/penalizable_oracle.py`) -/

/-- `ORACLE_PENALTY_THRESHOLD_COUNT = 5`. -/
def ORACLE_PENALTY_THRESHOLD_COUNT : Nat := 5

/-- `ORACLE_PENALTY_TS = 1800`. -/
def ORACLE_PENALTY_TS : Int := 1800

/-- `PenaltyInfo` dataclass: `{last_penalized_ts, query_failures_count}`. -/
structure PenaltyInfo where
  last_penalized_ts : Int
  query_failures_count : Nat
deriving DecidableEq, Repr

/-- `PenaltyInfo.note_failure_or_penalize` (lines 14-19), as a pure state
transformer taking the current clock: if the stored count is already at
the threshold, stamp `last_penalized_ts = ts_now()` and reset the count;
otherwise increment the count. -/
def note_failure_or_penalize (now : Int) (p : PenaltyInfo) : PenaltyInfo :=
  if ORACLE_PENALTY_THRESHOLD_COUNT ≤ p.query_failures_count then
    ⟨now, 0⟩
  else
    ⟨p.last_penalized_ts, p.query_failures_count + 1⟩

/-- `PenalizablePriceOracleMixin.is_penalized` (lines 25-28).  Returns the
boolean result *and* the (possibly mutated) `penalty_info`: when the count
equals the threshold the method first calls `note_failure_or_penalize`,
then compares `ts_now() - last_penalized_ts` against the penalty window. -/
def is_penalized (now : Int) (p : PenaltyInfo) : Bool × PenaltyInfo :=
  let p' := if p.query_failures_count = ORACLE_PENALTY_THRESHOLD_COUNT then
      note_failure_or_penalize now p
    else p
  (decide (now - p'.last_penalized_ts ≤ ORACLE_PENALTY_TS), p')

/-! ## Oracle adapters (external collaborators, spec §6) -/

/-- Outcome of one `query_current_price(from, to, match_main_currency)`
call on an adapter: a `(Price, used_main_currency)` pair, a provider-level
failure (`DefiPoolError | PriceQueryUnsupportedAsset | RemoteError`, all
caught alike at lines 317-322 of `inquirer.py`), or a `RecursionError`
from the manual latest-price oracle's callback into the resolver. -/
inductive QueryOutcome where
  | ok (price : Price) (usedMainCurrency : Bool)
  | providerError
  | recursionError
deriving DecidableEq

/-- One oracle adapter instance, as observed by the loop of
`_query_oracle_instances`: the two `isinstance` checks, the transient
rate-limit flag (`rate_limited_in_last(DEFAULT_RATE_LIMIT_WAITING_TIME)`),
the penalty flag (`is_penalized()`), and the query behaviour keyed by the
identifiers of the two assets and the `match_main_currency` flag. -/
structure OracleInstance where
  isCPOInterface : Bool
  rateLimited : Bool
  penalizable : Bool
  penalized : Bool
  query : String → String → Bool → QueryOutcome

/-- The skip condition of lines 302-309: an instance is skipped when it is
a `CurrentPriceOracleInterface` and it is rate-limited, or it is a
`PenalizablePriceOracleMixin` and currently penalized. -/
def skipCond (inst : OracleInstance) : Bool :=
  inst.isCPOInterface && (inst.rateLimited || (inst.penalizable && inst.penalized))

/-- Behaviour of the fiat-conversion collaborator.  Modelled from the
spec: `_query_fiat_pair(base, quote) -> (Price, oracle_id)` or
`RemoteError` (spec §6); its definition is not part of the snapshot, only
its call at line 494 of `inquirer.py` is. -/
inductive FiatOutcome where
  | ok (p : Price) (o : CurrentPriceOracle)
  | remoteError
deriving DecidableEq

/-- Behaviour of the bisq market lookup.  Modelled from the spec: the
BSQ special case queries "a dedicated market-price lookup expressed in a
reference crypto asset" which may fail remotely (spec §4.3, §6); the
definition of `get_bisq_market_price` is not in the snapshot, only its
call at line 545 of `inquirer.py` is.  `err` covers
`RemoteError | DeserializationError`. -/
inductive BisqOutcome where
  | ok (priceInBtc : Price)
  | err
deriving DecidableEq

/-- The four order attributes set by `Inquirer.set_oracles_order`
(lines 244-251), kept zipped as the loop consumes them via `zip`. -/
structure OraclesConfig where
  oracles : List (CurrentPriceOracle × OracleInstance)
  oraclesNotOnchain : List (CurrentPriceOracle × OracleInstance)

/-- Read-only part of the `Inquirer` singleton: the configured oracle
order (`none` models "oracles never set", guarded by the assertion at
lines 276-283), the `_manualcurrent` adapter, the `special_tokens`
identifier set, and the two external collaborators. -/
structure InqConfig where
  configured : Option OraclesConfig
  manualcurrent : OracleInstance
  specialTokens : List String
  fiatPair : String → FiatOutcome
  bisq : BisqOutcome

/-- Mutable part of the `Inquirer` singleton that the resolution paths
touch: the price cache and the number of warnings handed to the message
aggregator (`_msg_aggregator.add_warning`). -/
structure InqState where
  cache : Cache
  warnings : Nat

/-- `Inquirer.get_cached_current_price_entry` (lines 212-220): the entry
is returned unless it is absent, older than `CURRENT_PRICE_CACHE_SECS`,
or carries the wrong `used_main_currency` flag. -/
def Inquirer.get_cached_current_price_entry (cache : Cache) (now : Int)
    (cache_key : String × String) (match_main_currency : Bool) : Option CachedPriceEntry :=
  match cache cache_key with
  | none => none
  | some c =>
      if now - c.time > CURRENT_PRICE_CACHE_SECS ∨ c.used_main_currency ≠ match_main_currency then
        none
      else
        some c

/-- Loop variables of `_query_oracle_instances` (lines 298-341):
`price`, `used_main_currency`, `oracle_queried`, plus an observation
field `queried` recording, in order, the oracles whose
`query_current_price` was actually invoked (it does not influence the
computation). -/
structure LoopAcc where
  price : Price
  usedMain : Bool
  oracleQueried : CurrentPriceOracle
  queried : List CurrentPriceOracle
deriving Repr

/-- The `for oracle, oracles_instance in zip(...)` loop body of
`_query_oracle_instances` (lines 301-341), parameterised by the zipped
oracle list.  `w` counts warnings added so far in this call; the result
carries the final accumulator and warning count, or the re-raised
`RecursionError` (when `coming_from_latest_price` is true) with the
warnings added before the raise.  Note the source's behaviour on a
provider-level failure: the assignment `price, used_main_currency = ...`
does not happen, so both keep their previous values; on a zero-price
success they are overwritten and the loop continues; `oracle_queried` is
only set right before `break`. -/
def queryLoop (fromId toId : String) (matchMain comingFromLatest : Bool) :
    List (CurrentPriceOracle × OracleInstance) → LoopAcc → Nat →
    Except (PyError × Nat) (LoopAcc × Nat)
  | [], acc, w => .ok (acc, w)
  | (o, inst) :: rest, acc, w =>
      if skipCond inst then
        queryLoop fromId toId matchMain comingFromLatest rest acc w
      else
        match inst.query fromId toId matchMain with
        | .providerError =>
            queryLoop fromId toId matchMain comingFromLatest rest
              { acc with queried := acc.queried ++ [o] } w
        | .recursionError =>
            if comingFromLatest then
              .error (.recursionError, w)
            else
              queryLoop fromId toId matchMain comingFromLatest rest
                { acc with queried := acc.queried ++ [o] } (w + 1)
        | .ok p usedMain =>
            let acc' := { acc with
                          price := p, usedMain := usedMain, queried := acc.queried ++ [o] }
            if p ≠ ZERO_PRICE then
              .ok ({ acc' with oracleQueried := o }, w)
            else
              queryLoop fromId toId matchMain comingFromLatest rest acc' w

/-- `Inquirer._query_oracle_instances` (lines 253-349).

Control flow mirrors the source:
* lines 276-283: assert that the four order attributes were set;
* line 285: `from_asset.is_asset_with_oracles()` decides the branch;
* lines 286-293 (assets with oracles): both assets are narrowed with
  `resolve_to_asset_with_oracles()` (raising `WrongAssetType` when the
  target has no oracles) and the selected instance list is bound to the
  local name `oracle_instances` — but the loop at line 301 iterates
  `zip(oracles, oracles_instances)`, and `oracles_instances` is a local
  name assigned only in the other branch (line 296).  Reaching the loop
  from this branch therefore raises `UnboundLocalError` before any oracle
  is consulted and before any cache write;
* lines 294-296 (assets without oracles): `oracles = [MANUALCURRENT]`,
  `oracles_instances = [self._manualcurrent]`, and the loop runs;
* lines 343-349: after a completed loop the `CachedPriceEntry` is written
  unconditionally and the triple is returned. -/
def Inquirer.query_oracle_instances (cfg : InqConfig) (st : InqState) (now : Int)
    (from_asset to_asset : Asset) (comingFromLatest skipOnchains matchMain : Bool) :
    Except PyError (Price × CurrentPriceOracle × Bool) × InqState :=
  let cache_key := (from_asset.identifier, to_asset.identifier)
  match cfg.configured with
  | none => (.error .assertionError, st)
  | some _ =>
      if from_asset.hasOracles then
        if to_asset.hasOracles then
          (.error .unboundLocalError, st)
        else
          (.error .wrongAssetType, st)
      else
        match queryLoop from_asset.identifier to_asset.identifier matchMain comingFromLatest
            [(CurrentPriceOracle.manualcurrent, cfg.manualcurrent)]
            ⟨ZERO_PRICE, false, .blockchain, []⟩ 0 with
        | .error (e, w) => (.error e, { st with warnings := st.warnings + w })
        | .ok (acc, w) =>
            (.ok (acc.price, acc.oracleQueried, acc.usedMain),
             { cache := updateCache st.cache cache_key
                 (some ⟨acc.price, now, .oracle acc.oracleQueried, acc.usedMain⟩),
               warnings := st.warnings + w })

/-- `Inquirer._find_usd_price` (lines 467-571), with a `fuel` bound for
the one recursive call of the BSQ branch (`find_usd_price_and_oracle(A_BTC)`
at line 546); exhausting fuel models Python's `RecursionError`.

Branches, in source order:
* line 475-476: `asset == A_USD` returns `(Price(ONE), CurrentPriceOracle, False)`
  — the bare enum class, modelled as `OracleTag.bareEnum`;
* lines 480-484: cache lookup unless `ignore_cache`;
* lines 486-490: `asset.resolve()`; `UnknownAsset` is logged and
  `(ZERO_PRICE, CurrentPriceOracle.FIAT, False)` returned;
* lines 492-495: fiat assets go to the fiat-conversion collaborator;
  a `RemoteError` is suppressed and control falls through;
* lines 499-535 (EVM tokens): the special-token branch (line 507) and the
  known-protocol/underlying branch (line 524) both unpack the result of
  `get_underlying_asset_price(asset)` into two names — but that function's
  body (lines 82-93) ends without a `return`, so it returns `None` and the
  tuple unpacking raises `TypeError` in both branches;
* lines 537-559 (BSQ): `get_bisq_market_price` (collaborator); on
  `RemoteError | DeserializationError` the handler at line 554 warns and
  then evaluates `Price(BTC_PER_BSQ * price_in_btc)` — `price_in_btc` is
  unbound exactly when the lookup itself raised, so the handler raises
  `UnboundLocalError` after adding the warning; on success the BTC price
  is resolved recursively (with `ignore_cache=False`), the product is
  cached under `(asset, A_USD)` and returned;
* lines 561-562 (KFEE): fixed `Price(FVal(0.01))` with tag `FIAT`;
* lines 564-571: the generic oracle loop against `A_USD`. -/
def Inquirer.find_usd_price :
    Nat → InqConfig → InqState → Int → Asset → Bool → Bool → Bool → Bool →
    Except PyError (Price × OracleTag × Bool) × InqState
  | fuel, cfg, st, now, asset, ignore_cache, skip_onchain, coming_from_latest_price,
    match_main_currency =>
    if assetEq asset A_USD then
      (.ok (1, .bareEnum, false), st)
    else
      let cache_key := (asset.identifier, A_USD.identifier)
      let hit := if ignore_cache then none
        else Inquirer.get_cached_current_price_entry st.cache now cache_key match_main_currency
      match hit with
      | some c => (.ok (c.price, c.oracle, c.used_main_currency), st)
      | none =>
        match asset.resolvesTo with
        | none => (.ok (ZERO_PRICE, .oracle .fiat, false), st)
        | some kind =>
          let fiatResult : Option (Except PyError (Price × OracleTag × Bool) × InqState) :=
            if kind = .fiat then
              match cfg.fiatPair asset.identifier with
              | .ok p o => some (.ok (p, .oracle o, false), st)
              | .remoteError => none
            else none
          match fiatResult with
          | some r => r
          | none =>
            let evmResult : Option (Except PyError (Price × OracleTag × Bool) × InqState) :=
              match kind with
              | .evmToken protocolKnown hasUnderlying =>
                  if asset.identifier ∈ cfg.specialTokens then
                    some (.error .typeError, st)
                  else if protocolKnown || hasUnderlying then
                    some (.error .typeError, st)
                  else none
              | _ => none
            match evmResult with
            | some r => r
            | none =>
              if assetEq asset A_BSQ then
                match cfg.bisq with
                | .err => (.error .unboundLocalError, { st with warnings := st.warnings + 1 })
                | .ok price_in_btc =>
                    match fuel with
                    | 0 => (.error .recursionError, st)
                    | fuel' + 1 =>
                        match Inquirer.find_usd_price fuel' cfg st now A_BTC
                            false false false false with
                        | (.error e, st₁) => (.error e, st₁)
                        | (.ok (btc_price, oracle, _), st₁) =>
                            let usd_price : Price := price_in_btc * btc_price
                            let entry : CachedPriceEntry := ⟨usd_price, now, oracle, false⟩
                            (.ok (usd_price, oracle, false),
                             { st₁ with cache := updateCache st₁.cache cache_key (some entry) })
              else if assetEq asset A_KFEE then
                (.ok (1 / 100, .oracle .fiat, false), st)
              else
                match Inquirer.query_oracle_instances cfg st now asset A_USD
                    coming_from_latest_price skip_onchain match_main_currency with
                | (.error e, st') => (.error e, st')
                | (.ok (p, o, m), st') => (.ok (p, .oracle o, m), st')

/-- `Inquirer._find_price` (lines 351-394):
identity pairs return `Price(ONE)` with tag `MANUALCURRENT` immediately
(line 369-370); a USD target delegates to `find_usd_price_and_oracle`
(a thin wrapper around `_find_usd_price`); otherwise the cache is consulted
unless `ignore_cache`, then the generic oracle loop runs. -/
def Inquirer.find_price (fuel : Nat) (cfg : InqConfig) (st : InqState) (now : Int)
    (from_asset to_asset : Asset)
    (ignore_cache skip_onchain coming_from_latest_price match_main_currency : Bool) :
    Except PyError (Price × OracleTag × Bool) × InqState :=
  if assetEq from_asset to_asset then
    (.ok (1, .oracle .manualcurrent, false), st)
  else if assetEq to_asset A_USD then
    Inquirer.find_usd_price fuel cfg st now from_asset ignore_cache skip_onchain
      coming_from_latest_price match_main_currency
  else
    let hit := if ignore_cache then none
      else Inquirer.get_cached_current_price_entry st.cache now
        (from_asset.identifier, to_asset.identifier) match_main_currency
    match hit with
    | some c => (.ok (c.price, c.oracle, c.used_main_currency), st)
    | none =>
        match Inquirer.query_oracle_instances cfg st now from_asset to_asset
            coming_from_latest_price skip_onchain match_main_currency with
        | (.error e, st') => (.error e, st')
        | (.ok (p, o, m), st') => (.ok (p, .oracle o, m), st')

/-! ## Historical engine (`backend/history/price.py`,
`backend/globalcommon/manual_price_oracles.py`) -/

/-- `history.types.HistoricalPriceOracle` (module not in the snapshot).
Members inferred from their uses: the instance attributes
`_cryptocompare`, `_coingecko`, `_defillama`, `_manual` of
`PriceHistorian` and the tag `MANUAL` used in
`manual_price_oracles.py`. -/
inductive HistoricalPriceOracle where
  | cryptocompare
  | coingecko
  | defillama
  | manual
deriving DecidableEq, Repr

/-- Class-attribute state of `PriceHistorian`.  The class declares
`_instance` (single underscore, line 32) and `__new__` assigns
`PriceHistorian.__instance` (double underscore, line 56) — inside the
class body Python name-mangles the latter to
`_PriceHistorian__instance`, a *different* attribute.  Both are modelled
as separate fields; no method of the class ever assigns `_instance`. -/
structure PHClassState where
  instanceAttr : Option Unit
  mangledInstanceAttr : Option Unit
  oracles : Option (List HistoricalPriceOracle)
deriving DecidableEq, Repr

/-- `PriceHistorian.__new__` (lines 40-62).  `withArgs` is whether the
caller passed the constructor collaborators (`data_directory`,
`cryptocompare`, ...).  The guard at line 47 reads `_instance`; the happy
path asserts the arguments (line 50-54), assigns the *mangled*
`__instance` attribute (line 56) and returns it (line 62).  A
parameterless call (`PriceHistorian()`) with `_instance` unset therefore
always fails the argument assertions. -/
def PriceHistorian.new (st : PHClassState) (withArgs : Bool) :
    Except PyError (PHClassState × Unit) :=
  match st.instanceAttr with
  | some i => .ok (st, i)
  | none =>
      if withArgs then
        .ok ({ st with mangledInstanceAttr := some () }, ())
      else
        .error .assertionError

/-- The `_instance` attribute after a `PriceHistorian.__new__` call
(unchanged by an error). -/
def instanceAttrAfterNew (st : PHClassState) (withArgs : Bool) : Option Unit :=
  match PriceHistorian.new st withArgs with
  | .ok (st', _) => st'.instanceAttr
  | .error _ => st.instanceAttr

/-- `PriceHistorian.set_oracles_order` (lines 64-71): the assertion
`len(oracles) != 0 and len(oracles) == len(set(oracles))` rejects empty
or duplicated orders; then `instance = PriceHistorian()` is a
parameterless singleton lookup, and only afterwards is the order
assigned. -/
def PriceHistorian.set_oracles_order (st : PHClassState)
    (oracles : List HistoricalPriceOracle) : Except PyError PHClassState :=
  if oracles.length ≠ 0 ∧ oracles.Nodup then
    match PriceHistorian.new st false with
    | .error e => .error e
    | .ok (st', _) => .ok { st' with oracles := some oracles }
  else
    .error .assertionError

/-- The field names of the `PriceHistory` Django model
(`backend/crypto/models/price.py`): `from_asset`, `to_asset`,
`source_type`, `timestamp`, `price` (plus the implicit `id`). -/
def priceHistoryFields : List String :=
  ["id", "from_asset", "to_asset", "source_type", "timestamp", "price"]

/-- A Django model constructor raises
`TypeError: '...' is an invalid keyword argument` when passed a keyword
that is not a model field. -/
def djangoModelInit (fields kwargs : List String) : Except PyError Unit :=
  if kwargs.all (fun k => k ∈ fields) then .ok () else .error .typeError

/-- `ManualPriceOracle.query_historical_price`
(`manual_price_oracles.py` lines 25-47): it constructs
`PriceHistory(from_asset=..., to_asset=..., timestamp=...,
max_seconds_distance=3600, source_type=...)` — but `max_seconds_distance`
is not a field of the `PriceHistory` model, so the constructor raises
`TypeError` before any lookup happens.  (Had construction succeeded, the
freshly constructed instance is never `None`, so the
`NoPriceForGivenTimestamp` raise at line 43 is unreachable as written;
the result payload is abstracted to `Unit` since the call never produces
one.) -/
def ManualPriceOracle.query_historical_price (fromAsset toAsset : Asset) (timestamp : Int) :
    Except PyError Unit :=
  match fromAsset, toAsset, timestamp with
  | _, _, _ =>
    match djangoModelInit priceHistoryFields
        ["from_asset", "to_asset", "timestamp", "max_seconds_distance", "source_type"] with
    | .error e => .error e
    | .ok _ => .ok ()

mutual

/-- `PriceHistorian.get_price_for_special_asset` (lines 73-109): for
`A_KFEE` the USD price is fixed at `Price(FVal(0.01))`; a non-USD target
multiplies it by `PriceHistorian().query_historical_price(A_USD, to_asset,
timestamp)` — a parameterless singleton lookup followed by the recursive
query (had the recursive query returned the truncated function's implicit
`None`, the multiplication `usd_price * price_mapping` would raise
`TypeError`).  Any other `from_asset` returns `None`.  `fuel` bounds the
mutual recursion with `query_historical_price`; running out models
Python's `RecursionError`. -/
def PriceHistorian.get_price_for_special_asset (fuel : Nat) (st : PHClassState)
    (from_asset to_asset : Asset) (timestamp : Int) : Except PyError (Option Price) :=
  if assetEq from_asset A_KFEE then
    let usd_price : Price := 1 / 100
    if assetEq to_asset A_USD then
      .ok (some usd_price)
    else
      match PriceHistorian.new st false with
      | .error e => .error e
      | .ok (st', _) =>
          match fuel with
          | 0 => .error .recursionError
          | fuel' + 1 =>
              match PriceHistorian.query_historical_price fuel' st' A_USD to_asset timestamp with
              | .error e => .error e
              | .ok (some price_mapping) => .ok (some (usd_price * price_mapping))
              | .ok none => .error .typeError
  else
    .ok none

/-- `PriceHistorian.query_historical_price` (lines 111-141).  Identical
assets return `Price(ONE)` before any other step (lines 124-125).
Otherwise `PriceHistorian()` is looked up (line 127) and the special-case
resolver consulted.  When the special case does not apply, the captured
source is truncated: the `with suppress(...)` block (lines 138-141) ends
with the bare assignment `price = Inquirer()` and the function body stops
there, so as written the function falls off the end and returns `None` —
modelled as `.ok none`.  (No oracle loop and no `NoPriceForGivenTimestamp`
raise exist in the function body.) -/
def PriceHistorian.query_historical_price (fuel : Nat) (st : PHClassState)
    (from_asset to_asset : Asset) (timestamp : Int) : Except PyError (Option Price) :=
  if assetEq from_asset to_asset then
    .ok (some 1)
  else
    match PriceHistorian.new st false with
    | .error e => .error e
    | .ok (st', _) =>
        match fuel with
        | 0 => .error .recursionError
        | fuel' + 1 =>
            match PriceHistorian.get_price_for_special_asset fuel' st' from_asset to_asset
                timestamp with
            | .error e => .error e
            | .ok (some special_asset_price) => .ok (some special_asset_price)
            | .ok none => .ok none

end

/-! ## Concrete scenario data used by closed theorems and witnesses -/

/-- An adapter that answers with the zero-price sentinel. -/
def oracleZero : OracleInstance :=
  ⟨true, false, true, false, fun _ _ _ => .ok ZERO_PRICE false⟩

/-- An adapter that answers with price 5. -/
def oracleFive : OracleInstance :=
  ⟨true, false, true, false, fun _ _ _ => .ok 5 false⟩

/-- An adapter that answers with price 7. -/
def oracleSeven : OracleInstance :=
  ⟨true, false, true, false, fun _ _ _ => .ok 7 false⟩

/-- A manual-current adapter that answers with the zero sentinel. -/
def manualZero : OracleInstance :=
  ⟨true, false, false, false, fun _ _ _ => .ok ZERO_PRICE false⟩

/-- A manual-current adapter whose callback into the resolver hits a
manual-price cycle and surfaces `RecursionError`. -/
def manualCycle : OracleInstance :=
  ⟨true, false, false, false, fun _ _ _ => .recursionError⟩

/-- A rate-limited, penalized adapter (skipped by the loop). -/
def oraclePenalized : OracleInstance :=
  ⟨true, false, true, true, fun _ _ _ => .ok 9 false⟩

/-- The empty price cache. -/
def emptyCache : Cache := fun _ => none

/-- A fresh engine state: empty cache, no warnings emitted. -/
def st0 : InqState := ⟨emptyCache, 0⟩

/-- A configured order `[coingecko, cryptocompare, defillama]` (all
off-chain, so the not-onchain split is the same list), manual-current
adapter answering zero, failing collaborators. -/
def cfgC : InqConfig :=
  { configured := some
      ⟨[(.coingecko, oracleZero), (.cryptocompare, oracleFive), (.defillama, oracleSeven)],
       [(.coingecko, oracleZero), (.cryptocompare, oracleFive), (.defillama, oracleSeven)]⟩,
    manualcurrent := manualZero,
    specialTokens := [],
    fiatPair := fun _ => .remoteError,
    bisq := .err }

/-- `cfgC` with the manual-current adapter replaced by one that hits a
manual-price cycle. -/
def cfgCycle : InqConfig := { cfgC with manualcurrent := manualCycle }

/-- A custom token that has no oracles
(`is_asset_with_oracles() == False`), so `_query_oracle_instances`
reaches the manual-only branch for it. -/
def A_MYTOKEN : Asset := ⟨"MYTOKEN", false, some .crypto⟩

/-! ## Claim theorems -/

/-- C4 (counterexample): the claim says that `record_failure()`
(`note_failure_or_penalize`), "once the count reaches the threshold 5,
resets the counter to zero and stamps `last_penalized_at = now`".  On the
code, the call that makes the count reach 5 (the fifth consecutive
failure, from count 4) only increments: at time 1000 and state
`{last_penalized_ts := 0, query_failures_count := 4}` the result is
`{last_penalized_ts := 0, query_failures_count := 5}` — no stamp, no
reset — contradicting the claimed `{1000, 0}`. -/
theorem C4_counterexample :
    note_failure_or_penalize 1000 ⟨0, 4⟩ = ⟨0, 5⟩ ∧
    ¬ note_failure_or_penalize 1000 ⟨0, 4⟩ = ⟨1000, 0⟩ := by
  refine ⟨by decide, by decide⟩

/-- C4 (amended): `record_failure()` increments the counter while it is
below the threshold 5 and does not stamp; the penalty is effected by the
first call that observes a count at the threshold — a further
`record_failure()` (sixth consecutive failure) or an `is_penalized()`
check — which resets the counter to zero and stamps
`last_penalized_at = now`; thereafter `is_penalized()` returns true at
exactly the instants with `now - last_penalized_at <= 1800` and false
afterwards (leaving the state unchanged while the count differs from 5);
a skipped condition (`rate-limited or penalized`) removes the oracle from
the current round of the loop regardless of its position. -/
theorem C4_amended_penalty_mechanism :
    (∀ (now : Int) (p : PenaltyInfo),
        p.query_failures_count < ORACLE_PENALTY_THRESHOLD_COUNT →
        note_failure_or_penalize now p
          = ⟨p.last_penalized_ts, p.query_failures_count + 1⟩) ∧
    (∀ (now : Int) (p : PenaltyInfo),
        ORACLE_PENALTY_THRESHOLD_COUNT ≤ p.query_failures_count →
        note_failure_or_penalize now p = ⟨now, 0⟩) ∧
    (∀ (now : Int) (p : PenaltyInfo),
        p.query_failures_count = ORACLE_PENALTY_THRESHOLD_COUNT →
        is_penalized now p = (true, ⟨now, 0⟩)) ∧
    (∀ (now : Int) (p : PenaltyInfo),
        p.query_failures_count ≠ ORACLE_PENALTY_THRESHOLD_COUNT →
        is_penalized now p = (decide (now - p.last_penalized_ts ≤ ORACLE_PENALTY_TS), p)) ∧
    (∀ (fromId toId : String) (m cfl : Bool) (o : CurrentPriceOracle)
        (inst : OracleInstance) (rest : List (CurrentPriceOracle × OracleInstance))
        (acc : LoopAcc) (w : Nat),
        skipCond inst = true →
        queryLoop fromId toId m cfl ((o, inst) :: rest) acc w
          = queryLoop fromId toId m cfl rest acc w) := by
  refine ⟨?_, ?_, ?_, ?_, ?_⟩
  · intro now p h
    have h' : ¬ ORACLE_PENALTY_THRESHOLD_COUNT ≤ p.query_failures_count := by omega
    simp [note_failure_or_penalize, h']
  · intro now p h
    simp [note_failure_or_penalize, h]
  · intro now p h
    have h5 : ORACLE_PENALTY_THRESHOLD_COUNT ≤ p.query_failures_count := by omega
    simp [is_penalized, h, note_failure_or_penalize, h5, ORACLE_PENALTY_TS]
  · intro now p h
    simp [is_penalized, h]
  · intro fromId toId m cfl o inst rest acc w h
    simp [queryLoop, h]

/-- C4 (witness): the amended mechanism at concrete inputs — the fifth
failure only increments; a sixth failure stamps; a check at count 5
stamps at check time and reports penalized; pure checks report true
inside the 1800 s window and false outside it; a skipped instance is
dropped from the round. -/
theorem C4_amended_penalty_mechanism_witness :
    note_failure_or_penalize 1000 ⟨0, 4⟩ = ⟨0, 5⟩ ∧
    note_failure_or_penalize 1200 ⟨0, 5⟩ = ⟨1200, 0⟩ ∧
    is_penalized 1500 ⟨0, 5⟩ = (true, ⟨1500, 0⟩) ∧
    is_penalized 2000 ⟨1500, 0⟩ = (true, ⟨1500, 0⟩) ∧
    is_penalized 4000 ⟨1500, 0⟩ = (false, ⟨1500, 0⟩) ∧
    queryLoop ("BTC") ("EUR") false false [(.coingecko, oraclePenalized)] ⟨0, false, .blockchain, []⟩ 0
      = queryLoop ("BTC") ("EUR") false false [] ⟨0, false, .blockchain, []⟩ 0 := by
  refine ⟨C4_amended_penalty_mechanism.1 1000 ⟨0, 4⟩ (by decide),
          C4_amended_penalty_mechanism.2.1 1200 ⟨0, 5⟩ (by decide),
          C4_amended_penalty_mechanism.2.2.1 1500 ⟨0, 5⟩ (by decide), ?_, ?_,
          C4_amended_penalty_mechanism.2.2.2.2 ("BTC") ("EUR") false false .coingecko
            oraclePenalized [] ⟨0, false, .blockchain, []⟩ 0 (by decide)⟩
  · rw [C4_amended_penalty_mechanism.2.2.2.1 2000 ⟨1500, 0⟩ (by decide)]
    decide
  · rw [C4_amended_penalty_mechanism.2.2.2.1 4000 ⟨1500, 0⟩ (by decide)]
    decide

/-- C10: `is_penalized()` is effectful exactly at the threshold: when the
stored `query_failures_count` equals 5 the call stamps
`last_penalized_ts = ts_now()` and resets the count to zero (so the
penalty window starts at the moment of the check), and for any lower
count it leaves the `PenaltyInfo` unchanged. -/
theorem C10_is_penalized_effect :
    (∀ (now : Int) (p : PenaltyInfo),
        p.query_failures_count = ORACLE_PENALTY_THRESHOLD_COUNT →
        (is_penalized now p).2 = ⟨now, 0⟩) ∧
    (∀ (now : Int) (p : PenaltyInfo),
        p.query_failures_count < ORACLE_PENALTY_THRESHOLD_COUNT →
        (is_penalized now p).2 = p) := by
  constructor
  · intro now p h
    have h5 : ORACLE_PENALTY_THRESHOLD_COUNT ≤ p.query_failures_count := by omega
    simp [is_penalized, h, note_failure_or_penalize, h5]
  · intro now p h
    have h' : p.query_failures_count ≠ ORACLE_PENALTY_THRESHOLD_COUNT := by omega
    simp [is_penalized, h']

/-- C10 (witness): at count 5 the check at time 100 rewrites the state to
`{100, 0}`; at count 3 the state is untouched. -/
theorem C10_is_penalized_effect_witness :
    (is_penalized 100 ⟨0, 5⟩).2 = ⟨100, 0⟩ ∧ (is_penalized 100 ⟨0, 3⟩).2 = ⟨0, 3⟩ :=
  ⟨C10_is_penalized_effect.1 100 ⟨0, 5⟩ (by decide),
   C10_is_penalized_effect.2 100 ⟨0, 3⟩ (by decide)⟩

/-- C1: evaluation at the failing input.  With the order configured as
`[coingecko, cryptocompare, defillama]` and a from-asset that has oracles
(`A_BTC` priced in `A_EUR`), `_query_oracle_instances` raises
`UnboundLocalError` — the branch for assets with oracles binds the
selected adapters to the local `oracle_instances` (lines 289-293) while
the loop at line 301 iterates `zip(oracles, oracles_instances)`, a name
assigned only in the manual-only branch (line 296) — so no oracle is ever
visited and nothing is cached; the state is returned untouched.  The
second conjunct shows that the loop body *as written* (the code the claim
describes) does implement the claimed fallback behaviour on the same
order: with coingecko answering the zero sentinel and cryptocompare
answering 5, the result is price 5 tagged `cryptocompare`, the invoked
adapters are exactly `[coingecko, cryptocompare]`, and defillama is never
invoked. -/
theorem C1_oracle_loop_eval :
    Inquirer.query_oracle_instances cfgC st0 1000 A_BTC A_EUR false false false
      = (.error .unboundLocalError, st0) ∧
    queryLoop ("BTC") ("EUR") false false
        [(.coingecko, oracleZero), (.cryptocompare, oracleFive), (.defillama, oracleSeven)]
        ⟨ZERO_PRICE, false, .blockchain, []⟩ 0
      = .ok (⟨5, false, .cryptocompare, [.coingecko, .cryptocompare]⟩, 0) := by
  exact ⟨rfl, rfl⟩

/-- C3: whenever a run of `_query_oracle_instances` completes (returns a
triple instead of raising), the resulting state's cache holds, under the
key `(from_asset, to_asset)`, exactly the `CachedPriceEntry` built from
the returned price, the current clock, the returned oracle tag and the
returned currency flag (lines 343-349 execute unconditionally after the
loop) — in particular a zero-price outcome is stored as a valid cache
value. -/
theorem C3_unconditional_cache_write :
    ∀ (cfg : InqConfig) (st : InqState) (now : Int) (from_asset to_asset : Asset)
      (cfl skip m : Bool) (p : Price) (o : CurrentPriceOracle) (b : Bool) (st' : InqState),
      Inquirer.query_oracle_instances cfg st now from_asset to_asset cfl skip m
        = (.ok (p, o, b), st') →
      st'.cache (from_asset.identifier, to_asset.identifier) = some ⟨p, now, .oracle o, b⟩ := by
  intro cfg st now fa ta cfl skip m p o b st' h
  unfold Inquirer.query_oracle_instances at h
  split at h
  · simp at h
  · split at h
    · split at h <;> simp at h
    · split at h
      · simp at h
      · simp only [Prod.mk.injEq, Except.ok.injEq] at h
        obtain ⟨⟨hp, ho, hb⟩, hst⟩ := h
        subst hst
        simp [updateCache, hp, ho, hb]

/-- C3 (witness): a completed run in which the only consulted oracle (the
manual-current adapter, since `A_MYTOKEN` has no oracles) answers the
zero sentinel still writes a `CachedPriceEntry` with price 0 under
`("MYTOKEN", "EUR")`. -/
theorem C3_unconditional_cache_write_witness :
    (Inquirer.query_oracle_instances cfgC st0 1000 A_MYTOKEN A_EUR false false false).2.cache
        ("MYTOKEN", "EUR") = some ⟨0, 1000, .oracle .blockchain, false⟩ :=
  C3_unconditional_cache_write cfgC st0 1000 A_MYTOKEN A_EUR false false false
    0 .blockchain false
    (Inquirer.query_oracle_instances cfgC st0 1000 A_MYTOKEN A_EUR false false false).2 rfl

/-- C5: when the manual latest-price oracle call surfaces a
`RecursionError` (a manual-price cycle) inside `_query_oracle_instances`
(reachable in the branch for assets without oracles, where the loop runs
over `[MANUALCURRENT]`):
* with `coming_from_latest_price = True` the error is re-raised (line
  324-325): the call fails with `RecursionError`, no warning is added and
  the cache is untouched;
* at top level (`coming_from_latest_price = False`) exactly one warning
  is handed to the message aggregator (lines 327-331) and the call still
  completes normally with the zero-price fallback instead of failing;
* generically, the loop body converts the caught `RecursionError` of any
  non-skipped oracle into one warning and continues with the remaining
  oracles of the order (second conjunct). -/
theorem C5_cycle_handling :
    (∀ (cfg : InqConfig) (st : InqState) (now : Int) (from_asset to_asset : Asset)
        (skip m : Bool) (oc : OraclesConfig),
        cfg.configured = some oc →
        from_asset.hasOracles = false →
        skipCond cfg.manualcurrent = false →
        cfg.manualcurrent.query from_asset.identifier to_asset.identifier m = .recursionError →
        Inquirer.query_oracle_instances cfg st now from_asset to_asset true skip m
          = (.error .recursionError, st) ∧
        Inquirer.query_oracle_instances cfg st now from_asset to_asset false skip m
          = (.ok (ZERO_PRICE, .blockchain, false),
             ⟨updateCache st.cache (from_asset.identifier, to_asset.identifier)
                (some ⟨ZERO_PRICE, now, .oracle .blockchain, false⟩),
              st.warnings + 1⟩)) ∧
    (∀ (fromId toId : String) (m : Bool) (o : CurrentPriceOracle) (inst : OracleInstance)
        (rest : List (CurrentPriceOracle × OracleInstance)) (acc : LoopAcc) (w : Nat),
        skipCond inst = false →
        inst.query fromId toId m = .recursionError →
        queryLoop fromId toId m false ((o, inst) :: rest) acc w
          = queryLoop fromId toId m false rest
              { acc with queried := acc.queried ++ [o] } (w + 1)) := by
  constructor
  · intro cfg st now fa ta skip m oc hconf hfa hskip hq
    constructor
    · unfold Inquirer.query_oracle_instances
      rw [hconf]
      simp [hfa, queryLoop, hskip, hq]
    · unfold Inquirer.query_oracle_instances
      rw [hconf]
      simp [hfa, queryLoop, hskip, hq]
  · intro fromId toId m o inst rest acc w hskip hq
    simp [queryLoop, hskip, hq]

/-- C5 (witness): with the manual-current adapter hitting a cycle for
`("MYTOKEN", "EUR")`: the nested call propagates the `RecursionError`
untouched, and the top-level call emits exactly one warning, caches the
zero sentinel and returns it. -/
theorem C5_cycle_handling_witness :
    Inquirer.query_oracle_instances cfgCycle st0 1000 A_MYTOKEN A_EUR true false false
      = (.error .recursionError, st0) ∧
    Inquirer.query_oracle_instances cfgCycle st0 1000 A_MYTOKEN A_EUR false false false
      = (.ok (ZERO_PRICE, .blockchain, false),
         ⟨updateCache st0.cache ("MYTOKEN", "EUR")
            (some ⟨ZERO_PRICE, 1000, .oracle .blockchain, false⟩), 1⟩) :=
  C5_cycle_handling.1 cfgCycle st0 1000 A_MYTOKEN A_EUR false false
    ⟨[(.coingecko, oracleZero), (.cryptocompare, oracleFive), (.defillama, oracleSeven)],
     [(.coingecko, oracleZero), (.cryptocompare, oracleFive), (.defillama, oracleSeven)]⟩
    rfl rfl rfl rfl

/-- C9: resolving the pair `(A, A)` returns price 1 immediately in both
engines: `_find_price` (lines 369-370) returns
`(Price(ONE), MANUALCURRENT, False)` with the engine state untouched —
for every cache content, every oracle configuration and every flag
combination, so no cache read/write and no oracle call can influence or
be influenced by it — and `PriceHistorian.query_historical_price`
(lines 124-125) returns `Price(ONE)` at every timestamp before the
singleton lookup or any oracle machinery is reached. -/
theorem C9_identity_pair :
    (∀ (fuel : Nat) (cfg : InqConfig) (st : InqState) (now : Int) (a : Asset)
        (ic sk cfl m : Bool),
        Inquirer.find_price fuel cfg st now a a ic sk cfl m
          = (.ok (1, .oracle .manualcurrent, false), st)) ∧
    (∀ (fuel : Nat) (st : PHClassState) (a : Asset) (ts : Int),
        PriceHistorian.query_historical_price fuel st a a ts = .ok (some 1)) := by
  constructor
  · intro fuel cfg st now a ic sk cfl m
    simp [Inquirer.find_price, assetEq]
  · intro fuel st a ts
    unfold PriceHistorian.query_historical_price
    simp [assetEq]

/-- C6: evaluation of `PriceHistorian.set_oracles_order`.  The empty and
duplicated orders are rejected by the assertion (the spec's
`InvalidConfiguration` failure) with the state untouched — but a valid
singleton order *also* fails with `AssertionError` whenever the
`_instance` class attribute is unset, because `set_oracles_order` calls
the parameterless `PriceHistorian()` and `__new__` reads `_instance`
while construction only ever assigns the name-mangled
`_PriceHistorian__instance`.  The last conjunct shows `_instance` is
never assigned by `__new__` (with or without arguments), so it is `None`
in every state the code can produce and the valid-order case can never
succeed: the historical order is never replaced. -/
theorem C6_set_oracles_order_eval :
    (∀ (st : PHClassState),
        PriceHistorian.set_oracles_order st [] = .error .assertionError) ∧
    (∀ (st : PHClassState),
        PriceHistorian.set_oracles_order st [.cryptocompare, .cryptocompare]
          = .error .assertionError) ∧
    (∀ (mangled : Option Unit) (oc : Option (List HistoricalPriceOracle)),
        PriceHistorian.set_oracles_order ⟨none, mangled, oc⟩ [.cryptocompare]
          = .error .assertionError) ∧
    (∀ (st : PHClassState) (withArgs : Bool),
        instanceAttrAfterNew st withArgs = st.instanceAttr) := by
  refine ⟨?_, ?_, ?_, ?_⟩
  · intro st
    simp [PriceHistorian.set_oracles_order]
  · intro st
    simp [PriceHistorian.set_oracles_order]
  · intro mangled oc
    simp [PriceHistorian.set_oracles_order, PriceHistorian.new]
  · intro st b
    unfold instanceAttrAfterNew PriceHistorian.new
    cases h : st.instanceAttr <;> cases b <;> simp [h]

/-- C7: evaluation of a historical miss.  For a pair of distinct,
non-special assets (`A_BTC` priced in `A_EUR`) at any timestamp,
`PriceHistorian.query_historical_price` fails with `AssertionError` from
the parameterless singleton lookup at line 127 (`PriceHistorian()`), in
every state the code can produce (`_instance` is initialised to `None`
at class creation and no method of the class ever assigns it, cf.
`instanceAttrAfterNew`) — not with a `NoPriceForGivenTimestamp`
carrying the triple; indeed the truncated function body contains no
oracle loop and no such raise.  Moreover the manual-price oracle's own
lookup (`ManualPriceOracle.query_historical_price`) raises `TypeError`
for every input, because it passes the non-field keyword
`max_seconds_distance` to the `PriceHistory` model constructor, so its
`NoPriceForGivenTimestamp` raise at line 43 is unreachable too. -/
theorem C7_historical_miss_eval :
    (∀ (fuel : Nat) (mangled : Option Unit) (oc : Option (List HistoricalPriceOracle))
        (ts : Int),
        PriceHistorian.query_historical_price fuel ⟨none, mangled, oc⟩ A_BTC A_EUR ts
          = .error .assertionError) ∧
    (∀ (fromAsset toAsset : Asset) (ts : Int),
        ManualPriceOracle.query_historical_price fromAsset toAsset ts
          = .error .typeError) := by
  constructor
  · intro fuel mangled oc ts
    unfold PriceHistorian.query_historical_price
    simp [assetEq, A_BTC, A_EUR, PriceHistorian.new]
  · intro fa ta ts
    rfl

/-- C8 (counterexample): the claimed identity
`find_price(KFEE, X) == 0.01 * find_price(USD, X)` fails for a non-USD
target.  At `X = EUR` with a configured order and a fresh cache, the
current engine routes `KFEE -> EUR` to the generic oracle loop — the
0.01 special case exists only on the USD path (`_find_usd_price` line
561-562, and the docstring at line 364 states that special symbols are
unsupported in any currency but USD) — and the loop raises
`UnboundLocalError`, so there is no pair of successful prices satisfying
the multiplication. -/
theorem C8_counterexample :
    (Inquirer.find_price 9 cfgC st0 1000 A_KFEE A_EUR false false false false).1
      = .error .unboundLocalError ∧
    ¬ ∃ (p q : Price) (o₁ o₂ : OracleTag) (b₁ b₂ : Bool),
        (Inquirer.find_price 9 cfgC st0 1000 A_KFEE A_EUR false false false false).1
          = .ok (p, o₁, b₁) ∧
        (Inquirer.find_price 9 cfgC st0 1000 A_USD A_EUR false false false false).1
          = .ok (q, o₂, b₂) ∧
        p = (1 / 100) * q := by
  have h0 : (Inquirer.find_price 9 cfgC st0 1000 A_KFEE A_EUR false false false false).1
      = .error .unboundLocalError := rfl
  refine ⟨h0, ?_⟩
  rintro ⟨p, q, o₁, o₂, b₁, b₂, h₁, h₂, h₃⟩
  rw [h0] at h₁
  exact Except.noConfusion h₁

/-- C8 (amended): the fee-unit asset KFEE is price-fixed at 0.01 USD on
the USD paths of both engines: `find_price(KFEE, USD)` returns 0.01 with
oracle tag `FIAT` and no state change whenever the cache has no fresh
entry for `("KFEE", "USD")`, and the historical special-case resolver
returns 0.01 for `(KFEE, USD)` at every timestamp; the
`0.01 * find_price(USD, X)` composition exists only in the historical
special-case path, not in the current engine. -/
theorem C8_kfee_amended :
    (∀ (fuel : Nat) (cfg : InqConfig) (st : InqState) (now : Int) (sk cfl m : Bool),
        Inquirer.get_cached_current_price_entry st.cache now ("KFEE", "USD") m = none →
        Inquirer.find_price fuel cfg st now A_KFEE A_USD false sk cfl m
          = (.ok (1 / 100, .oracle .fiat, false), st)) ∧
    (∀ (fuel : Nat) (st : PHClassState) (ts : Int),
        PriceHistorian.get_price_for_special_asset fuel st A_KFEE A_USD ts
          = .ok (some (1 / 100))) := by
  constructor
  · intro fuel cfg st now sk cfl m h
    cases fuel with
    | zero =>
        simp [Inquirer.find_price, Inquirer.find_usd_price, assetEq, A_KFEE, A_USD, A_BSQ, h]
    | succ fuel' =>
        simp [Inquirer.find_price, Inquirer.find_usd_price, assetEq, A_KFEE, A_USD, A_BSQ, h]
  · intro fuel st ts
    unfold PriceHistorian.get_price_for_special_asset
    simp [assetEq]

/-- C8 (witness): the amended statement at a fresh state. -/
theorem C8_kfee_amended_witness :
    Inquirer.find_price 9 cfgC st0 1000 A_KFEE A_USD false false false false
      = (.ok (1 / 100, .oracle .fiat, false), st0) ∧
    PriceHistorian.get_price_for_special_asset 3 ⟨none, none, none⟩ A_KFEE A_USD 123
      = .ok (some (1 / 100)) :=
  ⟨C8_kfee_amended.1 9 cfgC st0 1000 false false false rfl,
   C8_kfee_amended.2 3 ⟨none, none, none⟩ 123⟩

/-- Helper: the returned triple of `_query_oracle_instances` does not
depend on the incoming mutable state at all — the loop never reads the
cache or the warning count (it only writes them). -/
theorem query_fst_state_indep :
    ∀ (cfg : InqConfig) (st₁ st₂ : InqState) (now : Int) (fa ta : Asset) (cfl sk m : Bool),
      (Inquirer.query_oracle_instances cfg st₁ now fa ta cfl sk m).1
        = (Inquirer.query_oracle_instances cfg st₂ now fa ta cfl sk m).1 := by
  intro cfg st₁ st₂ now fa ta cfl sk m
  unfold Inquirer.query_oracle_instances
  cases cfg.configured with
  | none => rfl
  | some oc =>
      cases hfa : fa.hasOracles with
      | true => cases hta : ta.hasOracles <;> simp [hfa, hta]
      | false =>
          simp only [hfa, Bool.false_eq_true, if_false]
          cases hq : queryLoop fa.identifier ta.identifier m cfl
              [(CurrentPriceOracle.manualcurrent, cfg.manualcurrent)]
              ⟨ZERO_PRICE, false, .blockchain, []⟩ 0 with
          | error ew => obtain ⟨e, w⟩ := ew; simp [hq]
          | ok aw => obtain ⟨acc, w⟩ := aw; simp [hq]

/-- Helper: the cache getter reads the cache only at the requested key. -/
theorem get_cached_congr (c₁ c₂ : Cache) (now : Int) (k : String × String) (m : Bool)
    (h : c₁ k = c₂ k) :
    Inquirer.get_cached_current_price_entry c₁ now k m
      = Inquirer.get_cached_current_price_entry c₂ now k m := by
  unfold Inquirer.get_cached_current_price_entry
  rw [h]

/-- Helper: the nested BTC resolution performed by the BSQ branch
(`find_usd_price_and_oracle(A_BTC)`, `ignore_cache=False`) returns the
same triple on any two states whose caches agree at `("BTC", "USD")` —
it reads the cache only there, and past a miss runs only the (cache-free)
oracle loop. -/
theorem find_usd_btc_fst_congr :
    ∀ (fuel : Nat) (cfg : InqConfig) (st₁ st₂ : InqState) (now : Int),
      st₁.cache ("BTC", "USD") = st₂.cache ("BTC", "USD") →
      (Inquirer.find_usd_price fuel cfg st₁ now A_BTC false false false false).1
        = (Inquirer.find_usd_price fuel cfg st₂ now A_BTC false false false false).1 := by
  intro fuel cfg st₁ st₂ now h
  have heq := get_cached_congr st₁.cache st₂.cache now ("BTC", "USD") false h
  have e1 : assetEq A_BTC A_USD = false := rfl
  have e2 : assetEq A_BTC A_BSQ = false := rfl
  have e3 : assetEq A_BTC A_KFEE = false := rfl
  have e4 : A_BTC.resolvesTo = some AssetKind.crypto := rfl
  have e5 : A_BTC.identifier = "BTC" := rfl
  have e6 : A_USD.identifier = "USD" := rfl
  unfold Inquirer.find_usd_price
  simp only [e1, e2, e3, e4, e5, e6, Bool.false_eq_true, if_false, heq]
  cases hc : Inquirer.get_cached_current_price_entry st₂.cache now ("BTC", "USD") false with
  | some c => simp
  | none =>
      simp only
      have hq := query_fst_state_indep cfg st₁ st₂ now A_BTC A_USD false false false
      rcases hx : Inquirer.query_oracle_instances cfg st₁ now A_BTC A_USD false false false
        with ⟨r₁, s₁⟩
      rcases hy : Inquirer.query_oracle_instances cfg st₂ now A_BTC A_USD false false false
        with ⟨r₂, s₂⟩
      have hr : r₁ = r₂ := by
        have := hq
        rw [hx, hy] at this
        exact this
      subst hr
      cases r₁ with
      | error e => simp
      | ok t => rcases t with ⟨p, o, m⟩; simp

/-- Helper: with `ignore_cache=True`, the triple returned by
`_find_usd_price` is the same on any two states whose caches agree at
`("BTC", "USD")` — the per-key lookup is skipped, and the only remaining
cache read in the whole function is the nested BTC resolution inside the
BSQ branch; when the asset is not BSQ (right disjunct) even that read is
unreachable, so no agreement is needed. -/
theorem find_usd_ignorecache_fst_congr :
    ∀ (fuel : Nat) (cfg : InqConfig) (st₁ st₂ : InqState) (now : Int) (a : Asset)
      (sk cfl m : Bool),
      (st₁.cache ("BTC", "USD") = st₂.cache ("BTC", "USD") ∨ assetEq a A_BSQ = false) →
      (Inquirer.find_usd_price fuel cfg st₁ now a true sk cfl m).1
        = (Inquirer.find_usd_price fuel cfg st₂ now a true sk cfl m).1 := by
  intro fuel cfg st₁ st₂ now a sk cfl m hyp
  have hq := query_fst_state_indep cfg st₁ st₂ now a A_USD cfl sk m
  unfold Inquirer.find_usd_price
  cases h1 : assetEq a A_USD with
  | true => simp [h1]
  | false =>
    simp only [h1, Bool.false_eq_true, if_false, if_true]
    cases hres : a.resolvesTo with
    | none => simp
    | some kind =>
      simp only
      cases kind with
      | fiat =>
          cases hfp : cfg.fiatPair a.identifier with
          | ok p o => simp [hfp]
          | remoteError =>
              first
              | simp only [hfp]
              | skip
              cases hbsq : assetEq a A_BSQ with
              | true =>
                  have hagree : st₁.cache ("BTC", "USD") = st₂.cache ("BTC", "USD") := by
                    rcases hyp with h | h
                    · exact h
                    · rw [hbsq] at h; cases h
                  first
                  | simp only [hbsq]
                  | skip
                  cases hb : cfg.bisq with
                  | err => simp
                  | ok pbtc =>
                      cases fuel with
                      | zero => simp
                      | succ fuel' =>
                          have hnest := find_usd_btc_fst_congr fuel' cfg st₁ st₂ now hagree
                          rcases hx : Inquirer.find_usd_price fuel' cfg st₁ now A_BTC
                              false false false false with ⟨r₁, s₁⟩
                          rcases hy : Inquirer.find_usd_price fuel' cfg st₂ now A_BTC
                              false false false false with ⟨r₂, s₂⟩
                          rw [hx, hy] at hnest
                          simp only at hnest
                          subst hnest
                          first
                          | simp only [hx, hy]
                          | skip
                          cases r₁ with
                          | error e2 => rfl
                          | ok t => rcases t with ⟨p2, o2, mm⟩; rfl
              | false =>
                  first
                  | simp only [hbsq]
                  | skip
                  cases hkfee : assetEq a A_KFEE with
                  | true => simp [hkfee]
                  | false =>
                      first
                      | simp only [hkfee]
                      | skip
                      rcases hx : Inquirer.query_oracle_instances cfg st₁ now a A_USD cfl sk m
                        with ⟨r₁, s₁⟩
                      rcases hy : Inquirer.query_oracle_instances cfg st₂ now a A_USD cfl sk m
                        with ⟨r₂, s₂⟩
                      rw [hx, hy] at hq
                      simp only at hq
                      subst hq
                      first
                      | simp only [hx, hy]
                      | skip
                      cases r₁ with
                      | error e2 => rfl
                      | ok t => rcases t with ⟨p2, o2, mm⟩; rfl
      | crypto =>
          simp only
          cases hbsq : assetEq a A_BSQ with
          | true =>
              have hagree : st₁.cache ("BTC", "USD") = st₂.cache ("BTC", "USD") := by
                rcases hyp with h | h
                · exact h
                · rw [hbsq] at h; cases h
              first
              | simp only [hbsq]
              | skip
              cases hb : cfg.bisq with
              | err => simp
              | ok pbtc =>
                  cases fuel with
                  | zero => simp
                  | succ fuel' =>
                      have hnest := find_usd_btc_fst_congr fuel' cfg st₁ st₂ now hagree
                      rcases hx : Inquirer.find_usd_price fuel' cfg st₁ now A_BTC
                          false false false false with ⟨r₁, s₁⟩
                      rcases hy : Inquirer.find_usd_price fuel' cfg st₂ now A_BTC
                          false false false false with ⟨r₂, s₂⟩
                      rw [hx, hy] at hnest
                      simp only at hnest
                      subst hnest
                      first
                      | simp only [hx, hy]
                      | skip
                      cases r₁ with
                      | error e2 => rfl
                      | ok t => rcases t with ⟨p2, o2, mm⟩; rfl
          | false =>
              first
              | simp only [hbsq]
              | skip
              cases hkfee : assetEq a A_KFEE with
              | true => simp [hkfee]
              | false =>
                  first
                  | simp only [hkfee]
                  | skip
                  rcases hx : Inquirer.query_oracle_instances cfg st₁ now a A_USD cfl sk m
                    with ⟨r₁, s₁⟩
                  rcases hy : Inquirer.query_oracle_instances cfg st₂ now a A_USD cfl sk m
                    with ⟨r₂, s₂⟩
                  rw [hx, hy] at hq
                  simp only at hq
                  subst hq
                  first
                  | simp only [hx, hy]
                  | skip
                  cases r₁ with
                  | error e2 => rfl
                  | ok t => rcases t with ⟨p2, o2, mm⟩; rfl
      | evmToken pk hu =>
          by_cases hsp : a.identifier ∈ cfg.specialTokens
          · simp [hsp]
          · first
            | simp only [hsp]
            | skip
            cases hpk : pk || hu with
            | true => simp [hpk]
            | false =>
                first
                | simp only [hpk]
                | skip
                cases hbsq : assetEq a A_BSQ with
                | true =>
                    have hagree : st₁.cache ("BTC", "USD") = st₂.cache ("BTC", "USD") := by
                      rcases hyp with h | h
                      · exact h
                      · rw [hbsq] at h; cases h
                    first
                    | simp only [hbsq]
                    | skip
                    cases hb : cfg.bisq with
                    | err => simp
                    | ok pbtc =>
                        cases fuel with
                        | zero => simp
                        | succ fuel' =>
                            have hnest := find_usd_btc_fst_congr fuel' cfg st₁ st₂ now hagree
                            rcases hx : Inquirer.find_usd_price fuel' cfg st₁ now A_BTC
                                false false false false with ⟨r₁, s₁⟩
                            rcases hy : Inquirer.find_usd_price fuel' cfg st₂ now A_BTC
                                false false false false with ⟨r₂, s₂⟩
                            rw [hx, hy] at hnest
                            simp only at hnest
                            subst hnest
                            first
                            | simp only [hx, hy]
                            | skip
                            cases r₁ with
                            | error e2 => rfl
                            | ok t => rcases t with ⟨p2, o2, mm⟩; rfl
                | false =>
                    first
                    | simp only [hbsq]
                    | skip
                    cases hkfee : assetEq a A_KFEE with
                    | true => simp [hkfee]
                    | false =>
                        first
                        | simp only [hkfee]
                        | skip
                        rcases hx : Inquirer.query_oracle_instances cfg st₁ now a A_USD cfl sk m
                          with ⟨r₁, s₁⟩
                        rcases hy : Inquirer.query_oracle_instances cfg st₂ now a A_USD cfl sk m
                          with ⟨r₂, s₂⟩
                        rw [hx, hy] at hq
                        simp only at hq
                        subst hq
                        first
                        | simp only [hx, hy]
                        | skip
                        cases r₁ with
                        | error e2 => rfl
                        | ok t => rcases t with ⟨p2, o2, mm⟩; rfl

/-- C2: cache lookup semantics and the `ignore_cache` bypass.
First conjunct: `get_cached_current_price_entry` returns an entry iff the
entry is present under the key, its age `now - resolved_at` is at most
`CURRENT_PRICE_CACHE_SECS` (300 s) and its `used_main_currency` flag
equals the requested one — an older entry or one with the opposite flag
is a miss.  Second conjunct: a `_find_price` call with
`ignore_cache=True` returns the same triple whatever entry (fresh,
matching or otherwise — `e` is arbitrary, including `none`) is stored
under the requested pair's key, i.e. the call never reads the cache entry
for the pair. -/
theorem C2_cache_semantics :
    (∀ (cache : Cache) (now : Int) (k : String × String) (m : Bool) (e : CachedPriceEntry),
        Inquirer.get_cached_current_price_entry cache now k m = some e ↔
          (cache k = some e ∧ now - e.time ≤ CURRENT_PRICE_CACHE_SECS ∧
           e.used_main_currency = m)) ∧
    (∀ (fuel : Nat) (cfg : InqConfig) (st : InqState) (now : Int) (fa ta : Asset)
        (sk cfl m : Bool) (e : Option CachedPriceEntry),
        (Inquirer.find_price fuel cfg
            ⟨updateCache st.cache (fa.identifier, ta.identifier) e, st.warnings⟩
            now fa ta true sk cfl m).1
          = (Inquirer.find_price fuel cfg st now fa ta true sk cfl m).1) := by
  constructor
  · intro cache now k m e
    unfold Inquirer.get_cached_current_price_entry
    cases hck : cache k with
    | none => simp
    | some c =>
        show (if now - c.time > CURRENT_PRICE_CACHE_SECS ∨ c.used_main_currency ≠ m then none
          else some c) = some e ↔ _
        by_cases hcond : now - c.time > CURRENT_PRICE_CACHE_SECS ∨ c.used_main_currency ≠ m
        · rw [if_pos hcond]
          constructor
          · intro hfalse
            exact Option.noConfusion hfalse
          · rintro ⟨hce, hage, hflag⟩
            injection hce with hce
            subst hce
            rcases hcond with h1 | h1
            · exact absurd hage (by omega)
            · exact (h1 hflag).elim
        · rw [if_neg hcond]
          push_neg at hcond
          obtain ⟨h1, h2⟩ := hcond
          constructor
          · intro hce
            injection hce with hce
            subst hce
            exact ⟨rfl, by omega, h2⟩
          · rintro ⟨hce, h3, h4⟩
            exact hce
  · intro fuel cfg st now fa ta sk cfl m e
    unfold Inquirer.find_price
    cases hft : assetEq fa ta with
    | true => simp [hft]
    | false =>
        simp only [hft, Bool.false_eq_true, if_false]
        cases hta : assetEq ta A_USD with
        | true =>
            simp only [hta, if_true]
            have hid : ta.identifier = "USD" := by
              have h := hta
              simp [assetEq, A_USD] at h
              exact h
            rw [hid]
            apply find_usd_ignorecache_fst_congr
            by_cases hbtc : fa.identifier = "BTC"
            · right
              simp [assetEq, A_BSQ, hbtc]
            · left
              have hne : ¬ ((("BTC" : String), ("USD" : String)) = (fa.identifier, "USD")) := by
                intro hk
                exact hbtc (congrArg Prod.fst hk).symm
              show updateCache st.cache (fa.identifier, "USD") e ("BTC", "USD")
                = st.cache ("BTC", "USD")
              simp only [updateCache]
              rw [if_neg hne]
        | false =>
            simp only [hta, Bool.false_eq_true, if_false]
            have hq := query_fst_state_indep cfg
              ⟨updateCache st.cache (fa.identifier, ta.identifier) e, st.warnings⟩ st
              now fa ta cfl sk m
            rcases hx : Inquirer.query_oracle_instances cfg
                ⟨updateCache st.cache (fa.identifier, ta.identifier) e, st.warnings⟩
                now fa ta cfl sk m with ⟨r₁, s₁⟩
            rcases hy : Inquirer.query_oracle_instances cfg st now fa ta cfl sk m
              with ⟨r₂, s₂⟩
            rw [hx, hy] at hq
            simp only at hq
            subst hq
            first
            | simp only [hx, hy]
            | skip
            cases r₁ with
            | error e2 => rfl
            | ok t => rcases t with ⟨p2, o2, mm⟩; rfl
